import Mathlib

/-!
Verification of the credential and status-transition subsystem of the
CW2_CST1510_M01069566 repository (a Python intelligence-platform demo).

The Python model classes (`app/models/incident.py`, `app/models/ticket.py`,
`app/models/dataset.py`) are embedded as Lean structures with `String`
fields, mirroring the fact that the source stores statuses, severities,
priorities and classifications as plain Python strings.  Mutating methods
become functions from the structure to the structure (or to `Option` /
`Except` when the Python method can raise).  Python `None` is modelled by
`Option`, Python floats that only enter linear comparisons are modelled by
`ℚ`, and Python character predicates (`str.islower`, `str.isupper`,
`str.isdigit`, `str.isalnum`) are modelled by the corresponding ASCII
`Char` predicates, which agree with Python on the ASCII inputs the
specification talks about.
-/

namespace CW2

/-! ## Incident model (`app/models/incident.py`) -/

/-- Embedding of the `Incident` class: one field per instance attribute,
with `_id` and `_created_at` inherited from `BaseModel`. -/
structure Incident where
  title : String
  description : String
  incident_date : String
  severity : String
  status : String
  assigned_to : Option String
  reported_by : Option String
  id : Option Int
  created_at : Option String
deriving Repr, DecidableEq

namespace Incident

/-- `Incident.VALID_SEVERITIES`. -/
def VALID_SEVERITIES : List String := ["low", "medium", "high", "critical"]

/-- `Incident.VALID_STATUSES`. -/
def VALID_STATUSES : List String := ["open", "investigating", "resolved", "closed"]

/-- The `valid_transitions` dict literal inside `Incident.can_transition_to`,
embedded as a function; the `.get(self._status, [])` default is the final
`[]` branch. -/
def valid_transitions (s : String) : List String :=
  if s = "open" then ["investigating", "closed"]
  else if s = "investigating" then ["resolved", "open", "closed"]
  else if s = "resolved" then ["closed", "open"]
  else if s = "closed" then ["open"]
  else []

/-- `Incident.can_transition_to`: membership of the target in the row of
the transition table selected by the current status. -/
def can_transition_to (i : Incident) (new_status : String) : Bool :=
  decide (new_status ∈ valid_transitions i.status)

/-- The `@status.setter` property: raises `ValueError` (modelled by
`Except.error`) when the value is not in `VALID_STATUSES`, otherwise
writes the status field directly. -/
def set_status (i : Incident) (value : String) : Except String Incident :=
  if value ∈ VALID_STATUSES then Except.ok { i with status := value }
  else Except.error "Status must be one of: open, investigating, resolved, closed"

/-- `Incident.assign_to_analyst`: stores the analyst and, only when the
current status is open, moves the status to investigating. -/
def assign_to_analyst (i : Incident) (analyst_username : String) : Incident :=
  let i1 := { i with assigned_to := some analyst_username }
  if i1.status = "open" then { i1 with status := "investigating" } else i1

/-- The local `severity_order` list of `Incident.escalate`. -/
def severity_order : List String := ["low", "medium", "high", "critical"]

/-- `Incident.escalate`: `list.index` raising `ValueError` on an unknown
severity is modelled by `none`; otherwise the severity moves one step up
unless it is already at the last position. -/
def escalate (i : Incident) : Option Incident :=
  match List.findIdx? (fun x => x == i.severity) severity_order with
  | none => none
  | some current_index =>
    if current_index < severity_order.length - 1 then
      some { i with severity := severity_order.getD (current_index + 1) i.severity }
    else
      some i

/-- `Incident.resolve`: sets status to resolved only from open or
investigating, otherwise leaves the incident unchanged. -/
def resolve (i : Incident) : Incident :=
  if i.status ∈ (["open", "investigating"] : List String) then
    { i with status := "resolved" }
  else i

/-- `Incident.close`: unconditionally sets status to closed. -/
def close (i : Incident) : Incident :=
  { i with status := "closed" }

/-- `Incident.reopen`: sets status to open only from closed. -/
def reopen (i : Incident) : Incident :=
  if i.status = "closed" then { i with status := "open" } else i

end Incident

/-! ## Ticket model (`app/models/ticket.py`) -/

/-- Embedding of the `Ticket` class. -/
structure Ticket where
  title : String
  description : String
  priority : String
  status : String
  category : String
  requester : Option String
  assigned_to : Option String
  id : Option Int
  created_at : Option String
deriving Repr, DecidableEq

namespace Ticket

/-- `Ticket.VALID_PRIORITIES`. -/
def VALID_PRIORITIES : List String := ["low", "medium", "high", "urgent"]

/-- `Ticket.VALID_STATUSES`. -/
def VALID_STATUSES : List String := ["open", "in_progress", "pending", "resolved", "closed"]

/-- The `valid_transitions` dict literal inside `Ticket.can_transition_to`. -/
def valid_transitions (s : String) : List String :=
  if s = "open" then ["in_progress", "closed"]
  else if s = "in_progress" then ["pending", "resolved", "open"]
  else if s = "pending" then ["in_progress", "resolved", "closed"]
  else if s = "resolved" then ["closed", "open"]
  else if s = "closed" then ["open"]
  else []

/-- `Ticket.can_transition_to`. -/
def can_transition_to (t : Ticket) (new_status : String) : Bool :=
  decide (new_status ∈ valid_transitions t.status)

/-- The `@status.setter` property of `Ticket`. -/
def set_status (t : Ticket) (value : String) : Except String Ticket :=
  if value ∈ VALID_STATUSES then Except.ok { t with status := value }
  else Except.error "Status must be one of: open, in_progress, pending, resolved, closed"

/-- `Ticket.is_open`: status is one of open, in_progress, pending. -/
def is_open (t : Ticket) : Bool :=
  decide (t.status ∈ (["open", "in_progress", "pending"] : List String))

/-- `Ticket.assign_to_technician`: stores the technician and, only when
the current status is open, moves the status to in_progress. -/
def assign_to_technician (t : Ticket) (technician_username : String) : Ticket :=
  let t1 := { t with assigned_to := some technician_username }
  if t1.status = "open" then { t1 with status := "in_progress" } else t1

/-- The local `priority_order` list of `Ticket.escalate`. -/
def priority_order : List String := ["low", "medium", "high", "urgent"]

/-- `Ticket.escalate`: priority moves one step up unless already at the
last position; an unknown priority makes `list.index` raise (`none`). -/
def escalate (t : Ticket) : Option Ticket :=
  match List.findIdx? (fun x => x == t.priority) priority_order with
  | none => none
  | some current_index =>
    if current_index < priority_order.length - 1 then
      some { t with priority := priority_order.getD (current_index + 1) t.priority }
    else
      some t

/-- `Ticket.resolve`: sets status to resolved only from open, in_progress
or pending, otherwise leaves the ticket unchanged. -/
def resolve (t : Ticket) : Ticket :=
  if t.status ∈ (["open", "in_progress", "pending"] : List String) then
    { t with status := "resolved" }
  else t

/-- `Ticket.close`: unconditionally sets status to closed. -/
def close (t : Ticket) : Ticket :=
  { t with status := "closed" }

/-- `Ticket.reopen`: sets status to open only from closed. -/
def reopen (t : Ticket) : Ticket :=
  if t.status = "closed" then { t with status := "open" } else t

/-- `Ticket.put_on_hold`: sets status to pending only from in_progress. -/
def put_on_hold (t : Ticket) : Ticket :=
  if t.status = "in_progress" then { t with status := "pending" } else t

/-- `Ticket.get_sla_hours`: the `sla_mapping` dict with default 24. -/
def get_sla_hours (t : Ticket) : Int :=
  if t.priority = "urgent" then 2
  else if t.priority = "high" then 8
  else if t.priority = "medium" then 24
  else if t.priority = "low" then 72
  else 24

/-- `Ticket.is_sla_breached`.  `datetime.fromisoformat` is an external
library call, modelled by the parameter `fromisoformat` mapping a
timestamp string to its time in seconds (`none` models the `ValueError`
the method catches); `datetime.now()` is the parameter `now`, also in
seconds.  The Python truthiness test `if not self._created_at` is false
for both `None` and the empty string, and the elapsed time is converted
to hours before the strict comparison with the SLA allowance. -/
def is_sla_breached (fromisoformat : String → Option ℚ) (now : ℚ) (t : Ticket) : Bool :=
  match t.created_at with
  | none => false
  | some s =>
    if s = "" then false
    else
      match fromisoformat s with
      | none => false
      | some created =>
        (decide ((now - created) / 3600 > (t.get_sla_hours : ℚ))) && t.is_open

end Ticket

/-! ## Dataset model (`app/models/dataset.py`) -/

/-- Embedding of the `Dataset` class; the float `size_mb` is modelled
by `ℚ`. -/
structure Dataset where
  name : String
  description : String
  source : String
  classification : String
  format : String
  size_mb : Option ℚ
  owner : Option String
  id : Option Int
  created_at : Option String
deriving Repr, DecidableEq

namespace Dataset

/-- `Dataset.VALID_CLASSIFICATIONS`. -/
def VALID_CLASSIFICATIONS : List String := ["public", "internal", "confidential", "restricted"]

/-- The local `classification_order` list used by both classification
moves. -/
def classification_order : List String := ["public", "internal", "confidential", "restricted"]

/-- `Dataset.upgrade_classification`: classification moves one step up
unless already at the last position; an unknown classification makes
`list.index` raise (`none`). -/
def upgrade_classification (d : Dataset) : Option Dataset :=
  match List.findIdx? (fun x => x == d.classification) classification_order with
  | none => none
  | some current_index =>
    if current_index < classification_order.length - 1 then
      some { d with classification := classification_order.getD (current_index + 1) d.classification }
    else
      some d

/-- `Dataset.downgrade_classification`: classification moves one step
down unless already at the first position. -/
def downgrade_classification (d : Dataset) : Option Dataset :=
  match List.findIdx? (fun x => x == d.classification) classification_order with
  | none => none
  | some current_index =>
    if 0 < current_index then
      some { d with classification := classification_order.getD (current_index - 1) d.classification }
    else
      some d

end Dataset

/-! ## Password manager (`app/utils/password_manager.py`) -/

/-- Interface of the external `bcrypt` library used by
`PasswordManager`.  `hashpw plaintext salt` is `bcrypt.hashpw` (the salt
argument is the output of `bcrypt.gensalt(rounds)` and embeds the work
factor); `checkpw plaintext hash` is `bcrypt.checkpw`, with `none`
modelling a raised exception on malformed input. -/
structure BcryptLib where
  hashpw : String → String → String
  checkpw : String → String → Option Bool

namespace PasswordManager

/-- `PasswordManager.DEFAULT_ROUNDS`. -/
def DEFAULT_ROUNDS : Int := 12

/-- `PasswordManager.hash_password`: raises `ValueError` (modelled by
`none`) on an empty password, otherwise hashes with the freshly
generated salt (passed here explicitly as the `salt` argument). -/
def hash_password (bc : BcryptLib) (plain_password : String) (salt : String) : Option String :=
  if plain_password = "" then none
  else some (bc.hashpw plain_password salt)

/-- `PasswordManager.verify_password`: false on empty plaintext or empty
hash, and the `try/except` turns any `bcrypt.checkpw` exception into
false. -/
def verify_password (bc : BcryptLib) (plain_password hashed_password : String) : Bool :=
  if plain_password = "" ∨ hashed_password = "" then false
  else
    match bc.checkpw plain_password hashed_password with
    | some b => b
    | none => false

/-- Python `bytes.split` on the single separator byte `sep`: splits at
every occurrence, keeping empty chunks, so the result always has one
more chunk than there are separators. -/
def splitOnChar (sep : Char) : List Char → List (List Char)
  | [] => [[]]
  | c :: cs =>
    if c = sep then [] :: splitOnChar sep cs
    else
      match splitOnChar sep cs with
      | [] => [[c]]
      | t :: ts => (c :: t) :: ts

/-- Value of a list of decimal digit characters, most significant
first. -/
def digitsVal (ds : List Char) : Nat :=
  ds.foldl (fun a c => 10 * a + (c.toNat - 48)) 0

/-- Python `int(string)`: surrounding whitespace is stripped, an
optional single sign is allowed, and the remainder must be a non-empty
run of decimal digits; anything else raises `ValueError` (`none`). -/
def pyInt? (cs : List Char) : Option Int :=
  let t := ((cs.dropWhile Char.isWhitespace).reverse.dropWhile Char.isWhitespace).reverse
  match t with
  | '+' :: ds =>
    if ds ≠ [] ∧ ds.all Char.isDigit then some (digitsVal ds : Int) else none
  | '-' :: ds =>
    if ds ≠ [] ∧ ds.all Char.isDigit then some (-(digitsVal ds : Int)) else none
  | ds =>
    if ds ≠ [] ∧ ds.all Char.isDigit then some (digitsVal ds : Int) else none

/-- `PasswordManager.needs_rehash`: reads the cost as
`int(hash.split(b'$')[2])` and compares it with the target `rounds`;
the surrounding `try/except` turns an out-of-range index or a failed
`int` parse into `True`. -/
def needs_rehash (hashed_password : String) (rounds : Int) : Bool :=
  match (splitOnChar '$' hashed_password.data).get? 2 with
  | none => true
  | some cost_field =>
    match pyInt? cost_field with
    | none => true
    | some cost => decide (cost < rounds)

/-- `string.ascii_lowercase`. -/
def ascii_lowercase : String := "abcdefghijklmnopqrstuvwxyz"

/-- `string.ascii_uppercase`. -/
def ascii_uppercase : String := "ABCDEFGHIJKLMNOPQRSTUVWXYZ"

/-- `string.digits`. -/
def string_digits : String := "0123456789"

/-- The `special` character set of `generate_temporary_password`. -/
def special : String := "!@#$%^&*"

/-- The `all_chars` union set of `generate_temporary_password`. -/
def all_chars : String := ascii_lowercase ++ ascii_uppercase ++ string_digits ++ special

/-- `PasswordManager.generate_temporary_password` before the final
shuffle: one `secrets.choice` from each of the four classes (the four
`choice_` arguments stand for those draws), then `length - 4` further
draws from `all_chars` (the `choice_fill` argument), where Python's
`range(length - 4)` is empty whenever `length ≤ 4`.  The concluding
in-place `shuffle` only permutes this list, which the theorems model by
quantifying over all permutations of it. -/
def generate_temporary_password (choice_lower choice_upper choice_digit choice_special : Char)
    (choice_fill : Nat → Char) (length : Int) : List Char :=
  [choice_lower, choice_upper, choice_digit, choice_special] ++
    (List.range (length - 4).toNat).map choice_fill

/-- `PasswordManager.calculate_password_strength`.  Python's
`len(set(password))` is the number of distinct characters, i.e. the
length of `dedup`; the character classes use the ASCII readings of
`islower`, `isupper`, `isdigit` and `not isalnum`. -/
def calculate_password_strength (password : String) : Nat × String :=
  if password = "" then (0, "weak")
  else
    let length := password.length
    let length_score := if length ≥ 8 then min 30 (length * 2) else 0
    let has_lower := password.data.any Char.isLower
    let has_upper := password.data.any Char.isUpper
    let has_digit := password.data.any Char.isDigit
    let has_special := password.data.any (fun c => !c.isAlphanum)
    let variety_score :=
      ((if has_lower then 1 else 0) + (if has_upper then 1 else 0) +
       (if has_digit then 1 else 0) + (if has_special then 1 else 0)) * 10
    let unique_chars := password.data.dedup.length
    let complexity_score := min 30 (unique_chars * 2)
    let score := length_score + variety_score + complexity_score
    let label :=
      if score < 30 then "weak"
      else if score < 50 then "fair"
      else if score < 70 then "good"
      else if score < 90 then "strong"
      else "very strong"
    (score, label)

end PasswordManager

/-! ## User service (`app/services/user_service.py`) -/

namespace UserService

/-- `special_character` from `user_service.py`: `not c.isalnum()`. -/
def special_character (c : Char) : Bool := !c.isAlphanum

/-- `check_password_strength` from `user_service.py`: length first, then
uppercase, lowercase, digit, special character, each returning the first
failure only. -/
def check_password_strength (password : String) : Bool × String :=
  if password.length < 8 then
    (false, "Password must be at least 8 characters long.")
  else
    let has_upper := password.data.any Char.isUpper
    let has_lower := password.data.any Char.isLower
    let has_digit := password.data.any Char.isDigit
    let has_special := password.data.any special_character
    if !has_upper then (false, "Password must contain an uppercase letter.")
    else if !has_lower then (false, "Password must contain a lowercase letter.")
    else if !has_digit then (false, "Password must contain a digit.")
    else if !has_special then (false, "Password must contain a special character.")
    else (true, "Password is strong.")

end UserService

/-! ## Validator (`app/utils/validators.py`) -/

namespace Validator

/-- The character class of the regex
`[!@#$%^&*(),.?":` brace `|<>` brace `]` in `Validator.validate_password`
(the two braces are written with escapes). -/
def special_chars : List Char :=
  ['!', '@', '#', '$', '%', '^', '&', '*', '(', ')', ',', '.', '?', '"',
   ':', '\x7b', '\x7d', '|', '<', '>']

/-- `Validator.validate_password`: empty check, minimum length, maximum
length, then `re.search` for an uppercase letter, a lowercase letter, a
digit and a special character, in that order, reporting the first
failure only. -/
def validate_password (password : String) : Bool × String :=
  if password = "" then (false, "Password cannot be empty")
  else if password.length < 8 then
    (false, "Password must be at least 8 characters long")
  else if password.length > 128 then
    (false, "Password must be less than 128 characters")
  else if !(password.data.any Char.isUpper) then
    (false, "Password must contain at least one uppercase letter")
  else if !(password.data.any Char.isLower) then
    (false, "Password must contain at least one lowercase letter")
  else if !(password.data.any Char.isDigit) then
    (false, "Password must contain at least one digit")
  else if !(password.data.any (fun c => decide (c ∈ special_chars))) then
    (false, "Password must contain at least one special character")
  else (true, "")

end Validator

/-! ## Concrete sample entities used by the theorems -/

/-- A concrete incident with valid fields, status open. -/
def sample_incident : Incident :=
  { title := "Phishing email reported", description := "Suspicious email received",
    incident_date := "2024-01-01", severity := "medium", status := "open",
    assigned_to := none, reported_by := none, id := none, created_at := none }

/-- A concrete ticket with valid fields, status open. -/
def sample_ticket : Ticket :=
  { title := "Printer not working", description := "The office printer is down",
    priority := "medium", status := "open", category := "hardware",
    requester := none, assigned_to := none, id := none, created_at := none }

/-- A concrete low-priority open ticket carrying a creation timestamp. -/
def sample_low_ticket : Ticket :=
  { title := "Slow laptop reported", description := "Laptop is slow",
    priority := "low", status := "open", category := "hardware",
    requester := none, assigned_to := none, id := none,
    created_at := some "2024-01-01T00:00:00" }

/-- A concrete interpretation of `datetime.fromisoformat` mapping the
sample timestamp to time 0 (in seconds) and failing elsewhere. -/
def fromiso_sample : String → Option ℚ :=
  fun s => if s = "2024-01-01T00:00:00" then some 0 else none

/-- A concrete dataset with valid fields. -/
def sample_dataset : Dataset :=
  { name := "Threat feed", description := "Indicator collection", source := "osint",
    classification := "internal", format := "csv", size_mb := none, owner := none,
    id := none, created_at := none }

/-- A concrete instance of the bcrypt interface used to witness the
contract hypotheses: the hash is the salt followed by a separator and
the plaintext, and checking always succeeds. -/
def bcrypt_toy : BcryptLib :=
  { hashpw := fun p s => s ++ ":" ++ p
    checkpw := fun _ _ => some true }

/-! ## Spec-side definitions, written from the claims' wording, for
comparison with the code-side functions above -/

/-- Spec-side count of satisfied character classes among lower, upper,
digit, symbol (symbol meaning non-alphanumeric, as in the source). -/
def num_classes (password : String) : Nat :=
  (if password.data.any Char.isLower then 1 else 0) +
  (if password.data.any Char.isUpper then 1 else 0) +
  (if password.data.any Char.isDigit then 1 else 0) +
  (if password.data.any (fun c => !c.isAlphanum) then 1 else 0)

/-- Spec-side number of distinct characters of the password. -/
def distinct_count (password : String) : Nat := password.data.dedup.length

/-- Spec-side label thresholds: below 30 weak, below 50 fair, below 70
good, below 90 strong, otherwise very strong. -/
def label_for (score : Nat) : String :=
  if score < 30 then "weak"
  else if score < 50 then "fair"
  else if score < 70 then "good"
  else if score < 90 then "strong"
  else "very strong"

/-- The total score in the shape computed by the source: length points
only from length 8 up, ten points per character class, two points per
distinct character with the same cap of 30. -/
def spec_score (p : String) : Nat :=
  (if 8 ≤ p.length then min 30 (p.length * 2) else 0) +
    num_classes p * 10 + min 30 (distinct_count p * 2)

/-- Spec-side rule list of the password-strength validation, in the
order the claim states: each rule pairs the violation test with the
message reported for it. -/
def strength_rules : List ((String → Bool) × String) :=
  [ (fun p => decide (p.length < 8), "Password must be at least 8 characters long."),
    (fun p => !(p.data.any Char.isUpper), "Password must contain an uppercase letter."),
    (fun p => !(p.data.any Char.isLower), "Password must contain a lowercase letter."),
    (fun p => !(p.data.any Char.isDigit), "Password must contain a digit."),
    (fun p => !(p.data.any UserService.special_character),
      "Password must contain a special character.") ]

/-- The first violated rule of the spec-side rule list, if any. -/
def first_violated (p : String) : Option ((String → Bool) × String) :=
  strength_rules.find? (fun r => r.1 p)

/-! ## C1 -/

/-- C1 counterexample: the status-changing operations do not fail on a
disallowed target.  An incident in status resolved has resolved outside
its table row, yet `resolve` silently returns it unchanged; and an
incident in status open has resolved outside its table row, yet
`resolve` silently performs that very transition.  `resolve` is total
(it returns an `Incident`, with no error channel at all), so neither
call can raise an `InvalidTransitionError`. -/
theorem C1_counterexample_resolve_silent :
    Incident.can_transition_to { sample_incident with status := "resolved" } "resolved" = false
  ∧ Incident.resolve { sample_incident with status := "resolved" } =
      { sample_incident with status := "resolved" }
  ∧ Incident.can_transition_to sample_incident "resolved" = false
  ∧ Incident.resolve sample_incident = { sample_incident with status := "resolved" } := by
  refine ⟨by decide, by decide, by decide, by decide⟩

/-- C1 amended: the transition table is consulted only by
`can_transition_to`; the mutating status operations are unguarded or
self-guarded total writes that never raise.  `resolve` writes resolved
exactly from open or investigating (even though the table forbids
open to resolved) and otherwise silently leaves the entity unchanged;
`close` always writes closed; `reopen` moves only closed to open;
`put_on_hold` moves only in_progress to pending; and the direct status
setter accepts exactly the members of `VALID_STATUSES` (raising
`ValueError` otherwise), ignoring the transition table. -/
theorem C1_amended_unenforced_transitions (i : Incident) (tk : Ticket) :
    (i.status ∉ (["open", "investigating"] : List String) → i.resolve = i)
  ∧ (i.status ∈ (["open", "investigating"] : List String) →
      i.resolve = { i with status := "resolved" })
  ∧ (i.status = "open" → i.can_transition_to "resolved" = false)
  ∧ i.close = { i with status := "closed" }
  ∧ (i.status = "closed" → i.reopen = { i with status := "open" })
  ∧ (i.status ≠ "closed" → i.reopen = i)
  ∧ (∀ v, v ∈ Incident.VALID_STATUSES → i.set_status v = Except.ok { i with status := v })
  ∧ (∀ v, v ∉ Incident.VALID_STATUSES → ∃ msg, i.set_status v = Except.error msg)
  ∧ (tk.status ∉ (["open", "in_progress", "pending"] : List String) → tk.resolve = tk)
  ∧ (tk.status ∈ (["open", "in_progress", "pending"] : List String) →
      tk.resolve = { tk with status := "resolved" })
  ∧ tk.close = { tk with status := "closed" }
  ∧ (tk.status = "closed" → tk.reopen = { tk with status := "open" })
  ∧ (tk.status ≠ "closed" → tk.reopen = tk)
  ∧ (tk.status = "in_progress" → tk.put_on_hold = { tk with status := "pending" })
  ∧ (tk.status ≠ "in_progress" → tk.put_on_hold = tk)
  ∧ (∀ v, v ∈ Ticket.VALID_STATUSES → tk.set_status v = Except.ok { tk with status := v }) := by
  refine ⟨?_, ?_, ?_, ?_, ?_, ?_, ?_, ?_, ?_, ?_, ?_, ?_, ?_, ?_, ?_, ?_⟩
  · intro h; simp [Incident.resolve, h]
  · intro h; simp [Incident.resolve, h]
  · intro h; rw [Incident.can_transition_to, h]; decide
  · rfl
  · intro h; simp [Incident.reopen, h]
  · intro h; simp [Incident.reopen, h]
  · intro v hv; simp [Incident.set_status, hv]
  · intro v hv
    simp only [Incident.set_status, if_neg hv]
    exact ⟨_, rfl⟩
  · intro h; simp [Ticket.resolve, h]
  · intro h; simp [Ticket.resolve, h]
  · rfl
  · intro h; simp [Ticket.reopen, h]
  · intro h; simp [Ticket.reopen, h]
  · intro h; simp [Ticket.put_on_hold, h]
  · intro h; simp [Ticket.put_on_hold, h]
  · intro v hv; simp [Ticket.set_status, hv]

/-- C1 amended, witnessed at concrete entities: a resolved incident is
left unchanged by `resolve`, and the closed-ticket reopen moves it to
open. -/
theorem C1_amended_witness :
    Incident.resolve { sample_incident with status := "resolved" } =
      { sample_incident with status := "resolved" }
  ∧ Ticket.reopen { sample_ticket with status := "closed" } =
      { sample_ticket with status := "open" } :=
  ⟨(C1_amended_unenforced_transitions { sample_incident with status := "resolved" }
      sample_ticket).1 (by decide),
   (C1_amended_unenforced_transitions sample_incident
      { sample_ticket with status := "closed" }).2.2.2.2.2.2.2.2.2.2.2.1 (by decide)⟩

/-! ## C2 -/

/-- C2: for every incident and ticket and every target string,
`can_transition_to` is true exactly when the target is in the table row
of the current status, with the rows exactly as the claim lists them;
in particular a closed incident may not move to investigating but may
move to open. -/
theorem C2_transition_tables :
    (∀ (i : Incident) (t : String),
      i.can_transition_to t = true ↔
        ((i.status = "open" ∧ (t = "investigating" ∨ t = "closed")) ∨
         (i.status = "investigating" ∧ (t = "resolved" ∨ t = "open" ∨ t = "closed")) ∨
         (i.status = "resolved" ∧ (t = "closed" ∨ t = "open")) ∨
         (i.status = "closed" ∧ t = "open")))
  ∧ (∀ (tk : Ticket) (t : String),
      tk.can_transition_to t = true ↔
        ((tk.status = "open" ∧ (t = "in_progress" ∨ t = "closed")) ∨
         (tk.status = "in_progress" ∧ (t = "pending" ∨ t = "resolved" ∨ t = "open")) ∨
         (tk.status = "pending" ∧ (t = "in_progress" ∨ t = "resolved" ∨ t = "closed")) ∨
         (tk.status = "resolved" ∧ (t = "closed" ∨ t = "open")) ∨
         (tk.status = "closed" ∧ t = "open")))
  ∧ Incident.can_transition_to { sample_incident with status := "closed" } "investigating" = false
  ∧ Incident.can_transition_to { sample_incident with status := "closed" } "open" = true := by
  refine ⟨?_, ?_, by decide, by decide⟩
  · intro i t
    simp only [Incident.can_transition_to, Incident.valid_transitions, decide_eq_true_eq]
    by_cases h1 : i.status = "open" <;> by_cases h2 : i.status = "investigating" <;>
      by_cases h3 : i.status = "resolved" <;> by_cases h4 : i.status = "closed" <;>
      simp_all
  · intro tk t
    simp only [Ticket.can_transition_to, Ticket.valid_transitions, decide_eq_true_eq]
    by_cases h1 : tk.status = "open" <;> by_cases h2 : tk.status = "in_progress" <;>
      by_cases h3 : tk.status = "pending" <;> by_cases h4 : tk.status = "resolved" <;>
      by_cases h5 : tk.status = "closed" <;>
      simp_all

/-! ## C4 -/

/-- C4: assignment stores the handler, moves the status from open to
investigating (incident) or in_progress (ticket), leaves the status
unchanged from any other value, and changes no other field; in
particular an open ticket becomes in_progress and a pending ticket
stays pending. -/
theorem C4_assignment_side_effect :
    (∀ (i : Incident) (a : String),
      i.assign_to_analyst a =
        { i with assigned_to := some a,
                 status := if i.status = "open" then "investigating" else i.status })
  ∧ (∀ (i : Incident) (a : String),
      (i.assign_to_analyst a).title = i.title ∧
      (i.assign_to_analyst a).description = i.description ∧
      (i.assign_to_analyst a).incident_date = i.incident_date ∧
      (i.assign_to_analyst a).severity = i.severity ∧
      (i.assign_to_analyst a).reported_by = i.reported_by ∧
      (i.assign_to_analyst a).id = i.id ∧
      (i.assign_to_analyst a).created_at = i.created_at ∧
      (i.assign_to_analyst a).assigned_to = some a)
  ∧ (∀ (t : Ticket) (a : String),
      t.assign_to_technician a =
        { t with assigned_to := some a,
                 status := if t.status = "open" then "in_progress" else t.status })
  ∧ (∀ (t : Ticket) (a : String),
      (t.assign_to_technician a).title = t.title ∧
      (t.assign_to_technician a).description = t.description ∧
      (t.assign_to_technician a).priority = t.priority ∧
      (t.assign_to_technician a).category = t.category ∧
      (t.assign_to_technician a).requester = t.requester ∧
      (t.assign_to_technician a).id = t.id ∧
      (t.assign_to_technician a).created_at = t.created_at ∧
      (t.assign_to_technician a).assigned_to = some a)
  ∧ (Ticket.assign_to_technician { sample_ticket with status := "open" } "tech").status
      = "in_progress"
  ∧ (Ticket.assign_to_technician { sample_ticket with status := "pending" } "tech").status
      = "pending" := by
  refine ⟨?_, ?_, ?_, ?_, by decide, by decide⟩
  · intro i a
    by_cases h : i.status = "open" <;> simp [Incident.assign_to_analyst, h]
  · intro i a
    by_cases h : i.status = "open" <;> simp [Incident.assign_to_analyst, h]
  · intro t a
    by_cases h : t.status = "open" <;> simp [Ticket.assign_to_technician, h]
  · intro t a
    by_cases h : t.status = "open" <;> simp [Ticket.assign_to_technician, h]

/-! ## C5 -/

/-- C5: `is_sla_breached` is true exactly when the ticket carries a
non-empty parseable creation timestamp, the elapsed hours strictly
exceed the SLA allowance of its priority, and the status is open,
in_progress or pending; the SLA allowances are urgent 2, high 8,
medium 24, low 72; and the claim's three concrete low-priority examples
(71 hours open, 73 hours open, 73 hours resolved) evaluate to false,
true and false. -/
theorem C5_sla_breach :
    (∀ (fromisoformat : String → Option ℚ) (now : ℚ) (t : Ticket),
      t.is_sla_breached fromisoformat now = true ↔
        ∃ s created, t.created_at = some s ∧ s ≠ "" ∧ fromisoformat s = some created ∧
          (now - created) / 3600 > (t.get_sla_hours : ℚ) ∧
          (t.status = "open" ∨ t.status = "in_progress" ∨ t.status = "pending"))
  ∧ ({ sample_ticket with priority := "urgent" } : Ticket).get_sla_hours = 2
  ∧ ({ sample_ticket with priority := "high" } : Ticket).get_sla_hours = 8
  ∧ ({ sample_ticket with priority := "medium" } : Ticket).get_sla_hours = 24
  ∧ ({ sample_ticket with priority := "low" } : Ticket).get_sla_hours = 72
  ∧ sample_low_ticket.is_sla_breached fromiso_sample (71 * 3600) = false
  ∧ sample_low_ticket.is_sla_breached fromiso_sample (73 * 3600) = true
  ∧ ({ sample_low_ticket with status := "resolved" } : Ticket).is_sla_breached
      fromiso_sample (73 * 3600) = false := by
  refine ⟨?_, by decide, by decide, by decide, by decide, ?_, ?_, ?_⟩
  · intro fromisoformat now t
    rw [Ticket.is_sla_breached]
    cases hca : t.created_at with
    | none => simp [hca]
    | some s =>
      by_cases hs : s = ""
      · simp [hs]
      · simp only [if_neg hs]
        cases hfs : fromisoformat s with
        | none => simp [hfs, hs]
        | some created =>
          simp [Ticket.is_open, hs, hfs]
  · rw [Ticket.is_sla_breached]
    simp [sample_low_ticket, fromiso_sample, Ticket.get_sla_hours, Ticket.is_open]
    norm_num
  · rw [Ticket.is_sla_breached]
    simp [sample_low_ticket, fromiso_sample, Ticket.get_sla_hours, Ticket.is_open]
    norm_num
  · rw [Ticket.is_sla_breached]
    simp [sample_low_ticket, fromiso_sample, Ticket.get_sla_hours, Ticket.is_open]

/-! ## C3 -/

/-- C3: under the documented contract of the external bcrypt library —
checking a password against its own hash succeeds, the salt is embedded
in the hash (so hashes with different salts differ), and hashes of
non-empty passwords are non-empty strings — `verify_password` accepts
`hash_password`'s output for every non-empty plaintext, and hashing the
same plaintext with two distinct freshly generated salts yields two
different hash strings. -/
theorem C3_hash_verify_roundtrip (bc : BcryptLib)
    (hround : ∀ p s, bc.checkpw p (bc.hashpw p s) = some true)
    (hinj : ∀ p s1 s2, bc.hashpw p s1 = bc.hashpw p s2 → s1 = s2)
    (hne : ∀ p s, p ≠ "" → bc.hashpw p s ≠ "") :
    ∀ (p s1 s2 : String), p ≠ "" → s1 ≠ s2 →
      PasswordManager.hash_password bc p s1 = some (bc.hashpw p s1) ∧
      PasswordManager.verify_password bc p (bc.hashpw p s1) = true ∧
      PasswordManager.hash_password bc p s1 ≠ PasswordManager.hash_password bc p s2 := by
  intro p s1 s2 hp hs
  refine ⟨by simp [PasswordManager.hash_password, hp], ?_, ?_⟩
  · rw [PasswordManager.verify_password, if_neg (by push_neg; exact ⟨hp, hne p s1 hp⟩),
      hround p s1]
  · simp only [PasswordManager.hash_password, if_neg hp, Option.some.injEq, ne_eq]
    intro h
    exact hs (hinj p s1 s2 h)

/-- The toy hash embeds the salt injectively. -/
theorem bcrypt_toy_inj : ∀ p s1 s2, bcrypt_toy.hashpw p s1 = bcrypt_toy.hashpw p s2 → s1 = s2 := by
  intro p s1 s2 h
  simp only [bcrypt_toy] at h
  have hd : s1.data ++ ((":" : String).data ++ p.data) = s2.data ++ ((":" : String).data ++ p.data) := by
    have h2 := congrArg String.data h
    simpa [String.data_append, List.append_assoc] using h2
  have h3 : s1.data = s2.data := List.append_cancel_right hd
  cases s1; cases s2; exact congrArg String.mk h3

/-- The toy hash of any password is a non-empty string. -/
theorem bcrypt_toy_ne : ∀ p s, p ≠ "" → bcrypt_toy.hashpw p s ≠ "" := by
  intro p s _ h
  have h2 := congrArg String.length h
  have e1 : ((":" : String)).length = 1 := rfl
  have e2 : (("" : String)).length = 0 := rfl
  rw [bcrypt_toy] at h2
  simp only [String.length_append, e1, e2] at h2
  omega

/-- C3 witnessed at the toy bcrypt instance with plaintext pw and the
two distinct salts saltA and saltB. -/
theorem C3_hash_verify_roundtrip_witness :
    PasswordManager.hash_password bcrypt_toy "pw" "saltA" = some "saltA:pw" ∧
    PasswordManager.verify_password bcrypt_toy "pw" "saltA:pw" = true ∧
    PasswordManager.hash_password bcrypt_toy "pw" "saltA" ≠
      PasswordManager.hash_password bcrypt_toy "pw" "saltB" := by
  have h := C3_hash_verify_roundtrip bcrypt_toy (fun _ _ => rfl) bcrypt_toy_inj bcrypt_toy_ne
    "pw" "saltA" "saltB" (by decide) (by decide)
  have e : bcrypt_toy.hashpw "pw" "saltA" = "saltA:pw" := rfl
  rw [e] at h
  exact h

/-! ## C9 -/

/-- C9: each escalation-style operation in the code moves its value
exactly one position along its fixed ordered list and is a silent no-op
at the boundary: incident severity along low, medium, high, critical;
ticket priority along low, medium, high, urgent; dataset classification
along public, internal, confidential, restricted in both directions; in
particular escalate at critical, upgrade at restricted and downgrade at
public each return the entity unchanged. -/
theorem C9_one_step_moves :
    (∀ i : Incident,
      (i.severity = "low" → i.escalate = some { i with severity := "medium" })
    ∧ (i.severity = "medium" → i.escalate = some { i with severity := "high" })
    ∧ (i.severity = "high" → i.escalate = some { i with severity := "critical" })
    ∧ (i.severity = "critical" → i.escalate = some i))
  ∧ (∀ t : Ticket,
      (t.priority = "low" → t.escalate = some { t with priority := "medium" })
    ∧ (t.priority = "medium" → t.escalate = some { t with priority := "high" })
    ∧ (t.priority = "high" → t.escalate = some { t with priority := "urgent" })
    ∧ (t.priority = "urgent" → t.escalate = some t))
  ∧ (∀ d : Dataset,
      (d.classification = "public" →
        d.upgrade_classification = some { d with classification := "internal" })
    ∧ (d.classification = "internal" →
        d.upgrade_classification = some { d with classification := "confidential" })
    ∧ (d.classification = "confidential" →
        d.upgrade_classification = some { d with classification := "restricted" })
    ∧ (d.classification = "restricted" → d.upgrade_classification = some d)
    ∧ (d.classification = "public" → d.downgrade_classification = some d)
    ∧ (d.classification = "internal" →
        d.downgrade_classification = some { d with classification := "public" })
    ∧ (d.classification = "confidential" →
        d.downgrade_classification = some { d with classification := "internal" })
    ∧ (d.classification = "restricted" →
        d.downgrade_classification = some { d with classification := "confidential" }))
  ∧ Incident.escalate { sample_incident with severity := "critical" }
      = some { sample_incident with severity := "critical" }
  ∧ Dataset.upgrade_classification { sample_dataset with classification := "restricted" }
      = some { sample_dataset with classification := "restricted" }
  ∧ Dataset.downgrade_classification { sample_dataset with classification := "public" }
      = some { sample_dataset with classification := "public" } := by
  refine ⟨?_, ?_, ?_, by decide, by decide, by decide⟩
  · intro i
    refine ⟨?_, ?_, ?_, ?_⟩ <;>
      { intro h
        rw [Incident.escalate, h]
        cases i
        simp_all [Incident.severity_order] }
  · intro t
    refine ⟨?_, ?_, ?_, ?_⟩ <;>
      { intro h
        rw [Ticket.escalate, h]
        cases t
        simp_all [Ticket.priority_order] }
  · intro d
    refine ⟨?_, ?_, ?_, ?_, ?_, ?_, ?_, ?_⟩ <;>
      { intro h
        first
        | rw [Dataset.upgrade_classification, h]
        | rw [Dataset.downgrade_classification, h]
        cases d
        simp_all [Dataset.classification_order] }

/-! ## C6 -/

/-- Any string of positive length is not the empty string. -/
theorem ne_empty_of_len_pos {p : String} (h : 1 ≤ p.length) : p ≠ "" := by
  intro he
  subst he
  exact absurd h (by decide)

/-- For a non-empty password the source computes exactly the spec-shaped
score together with the threshold label of that score. -/
theorem calculate_password_strength_eq (p : String) (hp : p ≠ "") :
    PasswordManager.calculate_password_strength p = (spec_score p, label_for (spec_score p)) := by
  simp only [PasswordManager.calculate_password_strength, if_neg hp, spec_score, num_classes,
    distinct_count, label_for]

/-- The number of satisfied character classes is at most four. -/
theorem num_classes_le_four (p : String) : num_classes p ≤ 4 := by
  simp only [num_classes]
  split_ifs <;> omega

/-- A password has at most as many distinct characters as characters. -/
theorem distinct_count_le_length (p : String) : distinct_count p ≤ p.length := by
  exact p.data.dedup_sublist.length_le

/-- C6: the empty password scores (0, weak); for passwords of length at
least 8 the score is the claimed sum of the capped length points, ten
points per satisfied character class and the capped distinct-character
points; every non-empty password's label follows the stated thresholds
applied to its score; a password shorter than 8 scores at most 54 and
its label stays below strong; and every 16-character password with all
four classes and all-distinct characters scores at least 90 and is
labelled very strong. -/
theorem C6_strength_score :
    PasswordManager.calculate_password_strength "" = (0, "weak")
  ∧ (∀ p : String, 8 ≤ p.length →
      (PasswordManager.calculate_password_strength p).1 =
        min 30 (2 * p.length) + 10 * num_classes p + min 30 (2 * distinct_count p))
  ∧ (∀ p : String, p ≠ "" →
      (PasswordManager.calculate_password_strength p).2 =
        label_for (PasswordManager.calculate_password_strength p).1)
  ∧ (∀ p : String, p.length < 8 →
      (PasswordManager.calculate_password_strength p).1 ≤ 54 ∧
      ((PasswordManager.calculate_password_strength p).2 = "weak" ∨
       (PasswordManager.calculate_password_strength p).2 = "fair" ∨
       (PasswordManager.calculate_password_strength p).2 = "good"))
  ∧ (∀ p : String, p.length = 16 → num_classes p = 4 → distinct_count p = 16 →
      90 ≤ (PasswordManager.calculate_password_strength p).1 ∧
      (PasswordManager.calculate_password_strength p).2 = "very strong") := by
  refine ⟨by decide, ?_, ?_, ?_, ?_⟩
  · intro p hl
    rw [calculate_password_strength_eq p (ne_empty_of_len_pos (by omega))]
    simp only [spec_score, if_pos hl]
    omega
  · intro p hp
    rw [calculate_password_strength_eq p hp]
  · intro p hl
    by_cases hp : p = ""
    · subst hp
      exact ⟨by decide, Or.inl (by decide)⟩
    · rw [calculate_password_strength_eq p hp]
      have h1 := num_classes_le_four p
      have h2 := distinct_count_le_length p
      have hscore : spec_score p ≤ 54 := by
        simp only [spec_score, if_neg (by omega : ¬ 8 ≤ p.length)]
        omega
      refine ⟨by simpa using hscore, ?_⟩
      simp only [label_for]
      split_ifs <;>
        first
        | (left; rfl)
        | (right; left; rfl)
        | (right; right; rfl)
        | (exfalso; omega)
  · intro p h16 hcls hdst
    rw [calculate_password_strength_eq p (ne_empty_of_len_pos (by omega))]
    have hs : spec_score p = 100 := by
      simp only [spec_score, h16, hcls, hdst]
      norm_num
    rw [hs]
    exact ⟨by norm_num, rfl⟩

/-- C6 witnessed at a concrete 16-character password drawing on all four
character classes with no repeated character. -/
theorem C6_strength_score_witness :
    90 ≤ (PasswordManager.calculate_password_strength "Abcdefghij12345!").1 ∧
    (PasswordManager.calculate_password_strength "Abcdefghij12345!").2 = "very strong" :=
  C6_strength_score.2.2.2.2 "Abcdefghij12345!" (by decide) (by decide) (by decide)

/-! ## C7 -/

/-- C7: the password-strength validation of the user service equals the
first-violated-rule semantics of the spec-side ordered rule list (length
first, then uppercase, lowercase, digit, symbol), reporting only that
first violation; the claim's three concrete examples follow, for the
user-service checker and the `Validator` variant alike. -/
theorem C7_first_violated_rule :
    (∀ p : String,
      UserService.check_password_strength p =
        match first_violated p with
        | some r => (false, r.2)
        | none => (true, "Password is strong."))
  ∧ UserService.check_password_strength "short"
      = (false, "Password must be at least 8 characters long.")
  ∧ UserService.check_password_strength "Sh0rt!"
      = (false, "Password must be at least 8 characters long.")
  ∧ UserService.check_password_strength "alllowercase1!"
      = (false, "Password must contain an uppercase letter.")
  ∧ Validator.validate_password "short"
      = (false, "Password must be at least 8 characters long")
  ∧ Validator.validate_password "Sh0rt!"
      = (false, "Password must be at least 8 characters long")
  ∧ Validator.validate_password "alllowercase1!"
      = (false, "Password must contain at least one uppercase letter") := by
  refine ⟨?_, by decide, by decide, by decide, by decide, by decide, by decide⟩
  intro p
  simp only [UserService.check_password_strength, first_violated, strength_rules, List.find?]
  by_cases h1 : p.length < 8 <;>
    cases h2 : p.data.any Char.isUpper <;>
    cases h3 : p.data.any Char.isLower <;>
    cases h4 : p.data.any Char.isDigit <;>
    cases h5 : p.data.any UserService.special_character <;>
    simp [h1, h2, h3, h4, h5]

/-! ## C8 -/

/-- Splitting a list that starts with the separator prepends an empty
field. -/
theorem splitOnChar_cons_sep (sep : Char) (l : List Char) :
    PasswordManager.splitOnChar sep (sep :: l) = [] :: PasswordManager.splitOnChar sep l := by
  simp [PasswordManager.splitOnChar]

/-- Splitting a separator-free chunk followed by a separator yields that
chunk as the first field, then the fields of the remainder. -/
theorem splitOnChar_append (sep : Char) (a b : List Char) (h : sep ∉ a) :
    PasswordManager.splitOnChar sep (a ++ sep :: b) = a :: PasswordManager.splitOnChar sep b := by
  induction a with
  | nil => simp [PasswordManager.splitOnChar]
  | cons c a ih =>
    have hc : ¬ c = sep := fun he => h (he ▸ List.mem_cons_self c a)
    have ha : sep ∉ a := fun hm => h (List.mem_cons_of_mem c hm)
    simp only [List.cons_append, PasswordManager.splitOnChar, if_neg hc, List.append_eq, ih ha]

/-- C8: `verify_password` returns false, and cannot raise, on an empty
plaintext, on an empty hash, and whenever the underlying bcrypt check
raises; and `needs_rehash` on a hash whose third dollar-separated field
parses as the work factor returns true exactly when that work factor is
below the target, while any hash whose work factor cannot be extracted
makes it return true (fail safe), as the two concrete well-formed hashes
with work factors 10 and 12 and the malformed hash illustrate. -/
theorem C8_verify_safe_and_needs_rehash :
    (∀ (bc : BcryptLib) (h : String), PasswordManager.verify_password bc "" h = false)
  ∧ (∀ (bc : BcryptLib) (p : String), PasswordManager.verify_password bc p "" = false)
  ∧ (∀ (bc : BcryptLib) (p h : String), bc.checkpw p h = none →
      PasswordManager.verify_password bc p h = false)
  ∧ (∀ (p1 cs rest : List Char) (rounds cost : Int),
      '$' ∉ p1 → '$' ∉ cs → PasswordManager.pyInt? cs = some cost →
      PasswordManager.needs_rehash (String.mk ('$' :: (p1 ++ '$' :: (cs ++ '$' :: rest)))) rounds
        = decide (cost < rounds))
  ∧ (∀ (h : String) (rounds : Int),
      ((PasswordManager.splitOnChar '$' h.data).get? 2).bind PasswordManager.pyInt? = none →
      PasswordManager.needs_rehash h rounds = true)
  ∧ PasswordManager.needs_rehash "plainhash" 12 = true
  ∧ PasswordManager.needs_rehash "$2b$10$N9qo8uLOickgx2ZMRZoMye" 12 = true
  ∧ PasswordManager.needs_rehash "$2b$12$N9qo8uLOickgx2ZMRZoMye" 12 = false := by
  refine ⟨?_, ?_, ?_, ?_, ?_, by decide, by decide, by decide⟩
  · intro bc h
    simp [PasswordManager.verify_password]
  · intro bc p
    simp [PasswordManager.verify_password]
  · intro bc p h hc
    by_cases hp : p = "" ∨ h = ""
    · rw [PasswordManager.verify_password, if_pos hp]
    · rw [PasswordManager.verify_password, if_neg hp, hc]
  · intro p1 cs rest rounds cost h1 h2 hint
    rw [PasswordManager.needs_rehash]
    have hd : (String.mk ('$' :: (p1 ++ '$' :: (cs ++ '$' :: rest)))).data
        = '$' :: (p1 ++ '$' :: (cs ++ '$' :: rest)) := rfl
    rw [hd, splitOnChar_cons_sep, splitOnChar_append '$' p1 _ h1,
      splitOnChar_append '$' cs _ h2]
    simp [List.get?, hint]
  · intro h rounds hnone
    rw [PasswordManager.needs_rehash]
    cases hg : (PasswordManager.splitOnChar '$' h.data).get? 2 with
    | none => rfl
    | some cs =>
      rw [hg] at hnone
      simp only [Option.some_bind] at hnone
      simp [hnone]

/-- C8 witnessed at a concrete well-formed hash with embedded work
factor 10 against target 12, and at an empty plaintext against the toy
bcrypt instance. -/
theorem C8_verify_safe_and_needs_rehash_witness :
    PasswordManager.needs_rehash "$2b$10$somesalt" 12 = true ∧
    PasswordManager.verify_password bcrypt_toy "" "hash" = false := by
  refine ⟨?_, C8_verify_safe_and_needs_rehash.1 bcrypt_toy "hash"⟩
  have h := C8_verify_safe_and_needs_rehash.2.2.2.1 "2b".data "10".data "somesalt".data 12 10
    (by decide) (by decide) (by decide)
  have e : String.mk ('$' :: ("2b".data ++ '$' :: ("10".data ++ '$' :: "somesalt".data)))
      = "$2b$10$somesalt" := rfl
  rw [e] at h
  simpa using h

/-! ## C10 -/

/-- C10: whatever the four guaranteed class draws, the filler draws and
the final shuffle produce, the generated password has exactly
`max length 4` characters and contains at least one lowercase letter,
one uppercase letter, one digit and one symbol from the special set. -/
theorem C10_temporary_password
    (choice_lower choice_upper choice_digit choice_special : Char) (choice_fill : Nat → Char)
    (length : Int) (out : List Char)
    (hl : choice_lower ∈ PasswordManager.ascii_lowercase.data)
    (hu : choice_upper ∈ PasswordManager.ascii_uppercase.data)
    (hd : choice_digit ∈ PasswordManager.string_digits.data)
    (hs : choice_special ∈ PasswordManager.special.data)
    (_hf : ∀ n, choice_fill n ∈ PasswordManager.all_chars.data)
    (hperm : List.Perm
      (PasswordManager.generate_temporary_password choice_lower choice_upper choice_digit
        choice_special choice_fill length) out) :
    (out.length : Int) = max length 4 ∧
    (∃ c ∈ out, c ∈ PasswordManager.ascii_lowercase.data) ∧
    (∃ c ∈ out, c ∈ PasswordManager.ascii_uppercase.data) ∧
    (∃ c ∈ out, c ∈ PasswordManager.string_digits.data) ∧
    (∃ c ∈ out, c ∈ PasswordManager.special.data) := by
  have hlen := hperm.length_eq
  simp only [PasswordManager.generate_temporary_password, List.length_append, List.length_cons,
    List.length_map, List.length_range, List.length_nil] at hlen
  refine ⟨by omega, ?_, ?_, ?_, ?_⟩
  · exact ⟨choice_lower,
      hperm.mem_iff.mp (by simp [PasswordManager.generate_temporary_password]), hl⟩
  · exact ⟨choice_upper,
      hperm.mem_iff.mp (by simp [PasswordManager.generate_temporary_password]), hu⟩
  · exact ⟨choice_digit,
      hperm.mem_iff.mp (by simp [PasswordManager.generate_temporary_password]), hd⟩
  · exact ⟨choice_special,
      hperm.mem_iff.mp (by simp [PasswordManager.generate_temporary_password]), hs⟩

/-- The constant filler draw lands in the union character set. -/
theorem fill_const_mem : ∀ n : Nat, (fun _ : Nat => 'a') n ∈ PasswordManager.all_chars.data := by
  intro n
  show 'a' ∈ PasswordManager.all_chars.data
  decide

/-- C10 witnessed at requested length 2: the result still has the four
guaranteed characters, one per class. -/
theorem C10_temporary_password_witness :
    (((['a', 'A', '0', '!'] : List Char)).length : Int) = max 2 4 ∧
    (∃ c ∈ (['a', 'A', '0', '!'] : List Char), c ∈ PasswordManager.ascii_lowercase.data) ∧
    (∃ c ∈ (['a', 'A', '0', '!'] : List Char), c ∈ PasswordManager.ascii_uppercase.data) ∧
    (∃ c ∈ (['a', 'A', '0', '!'] : List Char), c ∈ PasswordManager.string_digits.data) ∧
    (∃ c ∈ (['a', 'A', '0', '!'] : List Char), c ∈ PasswordManager.special.data) :=
  C10_temporary_password 'a' 'A' '0' '!' (fun _ => 'a') 2 ['a', 'A', '0', '!']
    (by decide) (by decide) (by decide) (by decide) fill_const_mem (List.Perm.refl _)

/-- C9 witnessed at concrete entities: escalate at the severity ceiling
and upgrade at the classification ceiling are no-ops. -/
theorem C9_one_step_moves_witness :
    Incident.escalate { sample_incident with severity := "critical" }
      = some { sample_incident with severity := "critical" }
  ∧ Dataset.upgrade_classification { sample_dataset with classification := "restricted" }
      = some { sample_dataset with classification := "restricted" } :=
  ⟨(C9_one_step_moves.1 { sample_incident with severity := "critical" }).2.2.2 rfl,
   ((C9_one_step_moves.2.2.1 { sample_dataset with classification := "restricted" }).2.2.2.1) rfl⟩

end CW2
